import Mathlib

/-!
A shallow embedding of the worker loop of tts_server.py (class IndexTtsServer).

The effectful operations of one loop iteration (the blocking receive, temporary
directory creation, UTF-8 payload decoding, os.makedirs, the model call
tts.infer_fast, the state of the artifact file afterwards, and the removal
calls of the cleanup block) are modelled by an oracle recording their outcomes.
The function runStep transcribes the body of IndexTtsServer.run line by line,
and runLoop iterates it, threading the Python local variable message, which
stays bound across iterations of the while loop (and is unbound before the
first receive succeeds).

Frames are byte sequences, modelled as lists of naturals.
-/

/-- Bytes of one message frame. -/
abbrev Bytes := List Nat

/-- One multi-frame message as exchanged with the broker. -/
abbrev Envelope := List Bytes

/-- The empty payload frame, the failure sentinel of the protocol. -/
def emptyFrame : Bytes := []

/-- Outcome of the blocking socket.recv_multipart call: either a full envelope
or an exception. -/
inductive RecvOutcome where
  | ok (m : Envelope)
  | raised
deriving DecidableEq

/-- Outcomes of the effectful operations inside process_text: whether
os.makedirs raises, whether tts.infer_fast raises (with the exception message),
and the content of the artifact file after the call completed or raised
(none when the file is absent). When makedirs raises, the model is never
invoked and the file cannot exist; fileAfterProcess accounts for that. -/
structure ProcOutcome where
  makedirsRaises : Option String
  inferRaises : Option String
  fileContent : Option Bytes
deriving DecidableEq

/-- The three possible return statements of process_text, lines 156, 160 and
164 of tts_server.py. -/
inductive SynthOutcome where
  | success
  | noOutput
  | raised (msg : String)
deriving DecidableEq

/-- The literal status string each outcome returns in the source. -/
def statusOf : SynthOutcome → String
  | SynthOutcome.success => "Text processed successfully!"
  | SynthOutcome.noOutput => "Error: IndexTTS failed to generate audio."
  | SynthOutcome.raised e => "Error in text processing: " ++ e

/-- Observable result of one process_text call: which return statement was
taken, whether tts.infer_fast was actually invoked, and which voice reference
path was passed to it. -/
structure ProcResult where
  outcome : SynthOutcome
  modelInvoked : Bool
  voiceUsed : String
deriving DecidableEq

/-- Embedding of IndexTtsServer.process_text (lines 105 to 164). If voice_file
is None it falls back to self.default_voice (lines 110 to 114) with no
existence check on either. Inside the try block: os.makedirs may raise, then
tts.infer_fast may raise; any exception is caught and converted to the
failure return of line 164. Otherwise the artifact file existence is checked
(line 154) to choose between the returns of lines 156 and 160. -/
def process_text (defaultVoice textData outputFile : String)
    (voiceFile : Option String) (o : ProcOutcome) : ProcResult :=
  let voice := voiceFile.getD defaultVoice
  match o.makedirsRaises with
  | some e => ⟨SynthOutcome.raised e, false, voice⟩
  | none =>
    match o.inferRaises with
    | some e => ⟨SynthOutcome.raised e, true, voice⟩
    | none =>
      if o.fileContent.isSome then ⟨SynthOutcome.success, true, voice⟩
      else ⟨SynthOutcome.noOutput, true, voice⟩

/-- State of the artifact file after process_text returns: when os.makedirs
raised, the model never ran and the output directory is missing, so the file
cannot exist; otherwise the file content is whatever the model call left. -/
def fileAfterProcess (o : ProcOutcome) : Option Bytes :=
  if o.makedirsRaises.isSome then none else o.fileContent

/-- Observable result of the cleanup block, lines 190 to 194: whether
os.remove succeeded, whether os.rmdir ran and succeeded, and whether the
warning of line 194 was printed. -/
structure CleanupResult where
  fileRemoved : Bool
  dirRemoved : Bool
  warned : Bool
deriving DecidableEq

/-- Embedding of the cleanup block (lines 190 to 194). os.remove raises when
the artifact file is absent (FileNotFoundError) or when removal itself fails;
in that case the except clause prints a warning and os.rmdir never runs.
When os.remove succeeds, os.rmdir runs and may itself fail, which is also
only logged. No exception escapes the block. -/
def cleanupWorkspace (fileExists removeRaises rmdirRaises : Bool) : CleanupResult :=
  if fileExists && !removeRaises then
    if rmdirRaises then ⟨true, false, true⟩
    else ⟨true, true, false⟩
  else ⟨false, false, true⟩

/-- Oracle for one iteration of the while loop of IndexTtsServer.run: the
receive outcome, whether tempfile.mkdtemp succeeds, whether the UTF-8 decode
of the payload succeeds and what text it yields, the process_text outcomes,
and whether the removal calls of the cleanup block fail on their own. -/
structure IterOracle where
  recv : RecvOutcome
  mkdtempOk : Bool
  decodeOk : Bool
  decodedText : String
  synth : ProcOutcome
  removeRaises : Bool
  rmdirRaises : Bool

/-- Observable result of one iteration of the while loop: the replies sent on
the socket during the iteration (in order), the payload frame the code read
at index 3 (when it got that far), the status string process_text returned
(when it was called), whether the outer except clause of line 196 ran,
whether a temporary directory was created, the cleanup block result (none
when the block never ran), whether the artifact file still exists at the end,
whether an uncaught exception terminated the loop, and the value of the
Python variable message after the iteration. -/
structure IterResult where
  replies : List Envelope
  payloadUsed : Option Bytes
  statusLogged : Option String
  tookExceptPath : Bool
  dirCreated : Bool
  cleanup : Option CleanupResult
  fileExistsAtEnd : Bool
  crashed : Bool
  nextMessage : Option Envelope
deriving DecidableEq

/-- Result of an iteration that ended in the outer except clause of lines 196
to 199 with the variable message bound to m: one reply message[0:3] plus an
empty frame is sent, no cleanup runs. -/
def exceptIterResult (m : Envelope) (pu : Option Bytes) (dc : Bool) : IterResult :=
  { replies := [m.take 3 ++ [emptyFrame]], payloadUsed := pu, statusLogged := none,
    tookExceptPath := true, dirCreated := dc, cleanup := none,
    fileExistsAtEnd := false, crashed := false, nextMessage := some m }

/-- Embedding of one iteration of the body of IndexTtsServer.run (lines 167
to 199), with message the value of the Python local variable of that name
before the iteration (none when it has never been assigned). Control flow of
the source: recv_multipart (line 170) may raise; message[3] (line 171) raises
IndexError when the envelope has fewer than 4 frames; tempfile.mkdtemp
(line 173) may raise; payload.decode (line 179) may raise; process_text never
raises (it catches internally); the reply of line 188 is message[0:3] plus the
artifact bytes if the file exists else an empty frame; the cleanup block of
lines 190 to 194 catches its own exceptions. Any exception in the try body
jumps to line 196, which sends message[0:3] plus an empty frame; if message
is unbound there, the NameError escapes the loop. -/
def runStep (defaultVoice : String) (message : Option Envelope) (o : IterOracle) : IterResult :=
  match o.recv with
  | RecvOutcome.raised =>
    match message with
    | none =>
      { replies := [], payloadUsed := none, statusLogged := none,
        tookExceptPath := true, dirCreated := false, cleanup := none,
        fileExistsAtEnd := false, crashed := true, nextMessage := none }
    | some m => exceptIterResult m none false
  | RecvOutcome.ok m =>
    if m.length < 4 then
      exceptIterResult m none false
    else
      let payload := m.getD 3 emptyFrame
      if o.mkdtempOk then
        if o.decodeOk then
          let pr := process_text defaultVoice o.decodedText "response.wav" none o.synth
          let fileState := fileAfterProcess o.synth
          let audio := fileState.getD emptyFrame
          let cl := cleanupWorkspace fileState.isSome o.removeRaises o.rmdirRaises
          { replies := [m.take 3 ++ [audio]], payloadUsed := some payload,
            statusLogged := some (statusOf pr.outcome), tookExceptPath := false,
            dirCreated := true, cleanup := some cl,
            fileExistsAtEnd := fileState.isSome && !cl.fileRemoved,
            crashed := false, nextMessage := some m }
        else
          exceptIterResult m (some payload) true
      else
        exceptIterResult m (some payload) false

/-- Iterating the while loop over a list of per-iteration oracles, threading
the Python variable message. A crashed iteration terminates the loop: its
result is the last one. -/
def runLoop (defaultVoice : String) : Option Envelope → List IterOracle → List IterResult
  | _, [] => []
  | msg, o :: os =>
    let r := runStep defaultVoice msg o
    if r.crashed then [r] else r :: runLoop defaultVoice r.nextMessage os

/-- Observable result of warm_up_models: how many synthesize calls were made,
whether the throwaway output went to a NamedTemporaryFile (as opposed to the
per-request mkdtemp directory workspace), whether the call was skipped for
lack of a default voice file, and whether any exception escaped. -/
structure WarmUpResult where
  synthCalls : Nat
  usedNamedTempFile : Bool
  skippedNoVoice : Bool
  exceptionEscapes : Bool
deriving DecidableEq

/-- Embedding of IndexTtsServer.warm_up_models (lines 88 to 103). A
NamedTemporaryFile context manager provides the output path (line 94; its
allocation is assumed to succeed). Inside the try block: if the default voice
file exists, process_text is called once on the dummy text; otherwise the call
is skipped with a log line. bodyRaises models an exception raised inside the
try block, which the except clause of line 102 catches and logs. -/
def warm_up_models (defaultVoiceExists bodyRaises : Bool) : WarmUpResult :=
  if bodyRaises then ⟨0, true, false, false⟩
  else if defaultVoiceExists then ⟨1, true, false, false⟩
  else ⟨0, true, true, false⟩

/-- Observable startup trace of IndexTtsServer.__init__ followed by run():
how many times warm_up_models was called (line 86 calls it exactly once) and
whether the process then enters the receive loop. -/
structure StartupTrace where
  warmUpRuns : Nat
  entersReceiveLoop : Bool
deriving DecidableEq

/-- Embedding of the tail of __init__ (line 86) and main (lines 201 to 204):
warm_up_models runs once, and run() is entered unless an exception escaped
the warm-up. -/
def serverStartup (defaultVoiceExists bodyRaises : Bool) : StartupTrace :=
  let w := warm_up_models defaultVoiceExists bodyRaises
  ⟨1, !w.exceptionEscapes⟩

/-- The payload frame of the single reply an iteration sends for a received
envelope m, as a function of the path taken: the artifact bytes on the normal
path when the file exists, and the empty failure sentinel on every other
path. -/
def sentAudio (m : Envelope) (o : IterOracle) : Bytes :=
  if m.length < 4 then emptyFrame
  else if o.mkdtempOk && o.decodeOk then (fileAfterProcess o.synth).getD emptyFrame
  else emptyFrame

/-- On every path of an iteration whose receive returned envelope m, exactly
one reply is sent: the first three frames of m followed by one payload
frame. -/
lemma runStep_ok_replies (d : String) (msg : Option Envelope) (o : IterOracle)
    (m : Envelope) (h : o.recv = RecvOutcome.ok m) :
    (runStep d msg o).replies = [m.take 3 ++ [sentAudio m o]] := by
  unfold runStep sentAudio
  rw [h]
  by_cases h4 : m.length < 4
  · simp [h4, exceptIterResult]
  · cases hm : o.mkdtempOk <;> cases hd : o.decodeOk <;>
      simp [h4, hm, hd, exceptIterResult]

/-- An iteration whose receive returned an envelope never crashes the loop. -/
lemma runStep_ok_not_crashed (d : String) (msg : Option Envelope) (o : IterOracle)
    (m : Envelope) (h : o.recv = RecvOutcome.ok m) :
    (runStep d msg o).crashed = false := by
  unfold runStep
  rw [h]
  by_cases h4 : m.length < 4
  · simp [h4, exceptIterResult]
  · cases hm : o.mkdtempOk <;> cases hd : o.decodeOk <;>
      simp [h4, hm, hd, exceptIterResult]

/-- Sample well-formed four-frame envelope. -/
def sampleEnv4 : Envelope := [[1], [2], [3], [4]]

/-- Oracle of a fully successful iteration on sampleEnv4. -/
def sampleOracleOk : IterOracle :=
  ⟨RecvOutcome.ok sampleEnv4, true, true, "t", ⟨none, none, some [5]⟩, false, false⟩

/-- C1: for every request whose envelope has been fully received, the loop
sends exactly one reply for that request, whose frames before the final
payload frame are the first three frames of that same envelope, before
resuming the wait (the iteration does not crash), on every outcome of
decoding, workspace acquisition and the synthesis call. -/
theorem C1_reply_exactly_once (d : String) (msg : Option Envelope) (o : IterOracle)
    (m : Envelope) (h : o.recv = RecvOutcome.ok m) :
    (runStep d msg o).replies.length = 1 ∧
    ((runStep d msg o).replies.headD []).dropLast = m.take 3 ∧
    0 < ((runStep d msg o).replies.headD []).length ∧
    (runStep d msg o).crashed = false := by
  rw [runStep_ok_replies d msg o m h]
  refine ⟨rfl, ?_, ?_, runStep_ok_not_crashed d msg o m h⟩
  · simp
  · simp

/-- Witness for C1 at a concrete successful request. -/
theorem C1_witness :
    (runStep "v" none sampleOracleOk).replies.length = 1 ∧
    ((runStep "v" none sampleOracleOk).replies.headD []).dropLast = sampleEnv4.take 3 ∧
    0 < ((runStep "v" none sampleOracleOk).replies.headD []).length ∧
    (runStep "v" none sampleOracleOk).crashed = false :=
  C1_reply_exactly_once "v" none sampleOracleOk sampleEnv4 rfl

/-- Oracle of an iteration whose blocking receive itself raises. -/
def recvFailOracle : IterOracle :=
  ⟨RecvOutcome.raised, true, true, "t", ⟨none, none, none⟩, false, false⟩

/-- C2 (code divergence): when the blocking receive raises, the except clause
of line 199 evaluates message, so on the very first iteration (message never
assigned) a NameError escapes and the loop terminates; on a later iteration
message still holds the previous envelope, so a spurious extra reply built
from the previous request frames is sent instead of none. A subsequent
oracle entry after the crash is never processed. -/
theorem C2_recv_failure_divergence :
    (runStep "v" none recvFailOracle).crashed = true ∧
    (runStep "v" none recvFailOracle).replies = [] ∧
    (runStep "v" (some sampleEnv4) recvFailOracle).replies =
      [[[1], [2], [3], emptyFrame]] ∧
    (runLoop "v" none [recvFailOracle, sampleOracleOk]).length = 1 :=
  ⟨rfl, rfl, rfl, rfl⟩

/-- Five-frame envelope: one more routing frame than the code expects. -/
def envFive : Envelope := [[0], [1], [2], [3], [4]]

/-- Oracle of a fully successful iteration on the five-frame envelope. -/
def oracleFive : IterOracle :=
  ⟨RecvOutcome.ok envFive, true, true, "t", ⟨none, none, some [7]⟩, false, false⟩

/-- C3 counterexample: for a five-frame envelope the claim demands the four
routing frames echoed plus one payload frame (five frames); the code replies
with only the first three frames plus the payload (four frames), and the
fourth routing frame [3] does not appear in the reply at all. -/
theorem C3_counterexample :
    (runStep "v" none oracleFive).replies = [[[0], [1], [2], [7]]] ∧
    ([[0], [1], [2], [7]] : Envelope).length ≠ envFive.length - 1 + 1 ∧
    ([3] : Bytes) ∉ ([[0], [1], [2], [7]] : Envelope) :=
  ⟨rfl, by decide, by decide⟩

/-- C3 amended: for every request envelope of exactly four frames, the reply
consists of the three routing frames (all frames but the last) echoed
byte-for-byte in order, followed by exactly one payload frame, so the reply
has (number of routing frames) + 1 = 4 frames. -/
theorem C3_four_frame_reply (d : String) (msg : Option Envelope) (o : IterOracle)
    (m : Envelope) (h : o.recv = RecvOutcome.ok m) (h4 : m.length = 4) :
    ((runStep d msg o).replies.headD []).dropLast = m.dropLast ∧
    ((runStep d msg o).replies.headD []).length = (m.length - 1) + 1 ∧
    (runStep d msg o).replies.length = 1 := by
  rw [runStep_ok_replies d msg o m h]
  refine ⟨?_, ?_, rfl⟩
  · simp [List.dropLast_eq_take, h4]
  · simp [List.length_take, h4]

/-- Witness for C3 at a concrete four-frame request. -/
theorem C3_witness :
    ((runStep "v" none sampleOracleOk).replies.headD []).dropLast = sampleEnv4.dropLast ∧
    ((runStep "v" none sampleOracleOk).replies.headD []).length = (sampleEnv4.length - 1) + 1 ∧
    (runStep "v" none sampleOracleOk).replies.length = 1 :=
  C3_four_frame_reply "v" none sampleOracleOk sampleEnv4 rfl rfl

/-- Oracle of a request whose synthesis completes but leaves no artifact
file. -/
def oracleNoFile : IterOracle :=
  ⟨RecvOutcome.ok sampleEnv4, true, true, "t", ⟨none, none, none⟩, false, false⟩

/-- Oracle of a request whose payload fails to decode as UTF-8 after the
temporary directory was already created. -/
def oracleDecodeFails : IterOracle :=
  ⟨RecvOutcome.ok sampleEnv4, true, false, "t", ⟨none, none, some [5]⟩, false, false⟩

/-- C4 (code divergence): on the synthesis-failure path the temporary
directory is created but not released, because os.remove on the absent
artifact raises and os.rmdir is skipped; on a decode exception the cleanup
block never runs at all, so the directory also survives. The artifact file
itself does not exist at the end on either path, and the reply is still
sent exactly once. -/
theorem C4_workspace_leak :
    (runStep "v" none oracleNoFile).dirCreated = true ∧
    (runStep "v" none oracleNoFile).cleanup =
      some { fileRemoved := false, dirRemoved := false, warned := true } ∧
    (runStep "v" none oracleNoFile).fileExistsAtEnd = false ∧
    (runStep "v" none oracleNoFile).replies = [[[1], [2], [3], emptyFrame]] ∧
    (runStep "v" none oracleDecodeFails).dirCreated = true ∧
    (runStep "v" none oracleDecodeFails).cleanup = none :=
  ⟨rfl, rfl, rfl, rfl, rfl, rfl⟩

/-- C5: the synthesis adapter distinguishes exactly three outcomes. It returns
the success status if and only if neither os.makedirs nor the model call
raised and the artifact file exists afterwards (the existence postcondition);
when the call completed but the file is absent it returns the no-output
failure; when the call raised it returns a failure carrying the message. -/
theorem C5_three_outcomes (d t out : String) (v : Option String) (o : ProcOutcome) :
    ((process_text d t out v o).outcome = SynthOutcome.success ↔
      o.makedirsRaises = none ∧ o.inferRaises = none ∧ o.fileContent.isSome = true) ∧
    (o.makedirsRaises = none → o.inferRaises = none → o.fileContent = none →
      (process_text d t out v o).outcome = SynthOutcome.noOutput) ∧
    (∀ e, o.makedirsRaises = none → o.inferRaises = some e →
      (process_text d t out v o).outcome = SynthOutcome.raised e) ∧
    (∀ e, o.makedirsRaises = some e →
      (process_text d t out v o).outcome = SynthOutcome.raised e) := by
  rcases o with ⟨md, inf, fc⟩
  unfold process_text
  cases md <;> cases inf <;> cases fc <;> simp

/-- Witness for C5: a completed call with an existing artifact is a success. -/
theorem C5_witness :
    (process_text "dv" "t" "out" none ⟨none, none, some [1]⟩).outcome =
      SynthOutcome.success :=
  (C5_three_outcomes "dv" "t" "out" none ⟨none, none, some [1]⟩).1.mpr ⟨rfl, rfl, rfl⟩

/-- C6: on the normal processing path the reply payload frame is exactly the
bytes of the artifact file when it exists after the synthesis call, and the
empty failure sentinel when it does not. -/
theorem C6_reply_payload (d : String) (msg : Option Envelope) (o : IterOracle)
    (m : Envelope) (b : Bytes) (h : o.recv = RecvOutcome.ok m) (h4 : 4 ≤ m.length)
    (hmk : o.mkdtempOk = true) (hdec : o.decodeOk = true) :
    (fileAfterProcess o.synth = some b →
      (runStep d msg o).replies = [m.take 3 ++ [b]]) ∧
    (fileAfterProcess o.synth = none →
      (runStep d msg o).replies = [m.take 3 ++ [emptyFrame]]) := by
  rw [runStep_ok_replies d msg o m h]
  unfold sentAudio
  have h4' : ¬ m.length < 4 := not_lt.mpr h4
  constructor
  · intro hf
    simp [h4', hmk, hdec, hf]
  · intro hf
    simp [h4', hmk, hdec, hf, emptyFrame]

/-- Witness for C6 at a concrete successful request whose artifact holds the
byte 5. -/
theorem C6_witness :
    (runStep "v" none sampleOracleOk).replies = [sampleEnv4.take 3 ++ [[5]]] :=
  (C6_reply_payload "v" none sampleOracleOk sampleEnv4 [5] rfl (by decide) rfl rfl).1 rfl

/-- C7 counterexample: with no explicit voice reference and a default
reference that does not exist, the code still invokes the model with that
reference (there is no existence pre-check in lines 110 to 149); the
file-not-found error surfaces only afterwards, as the caught model
exception. -/
theorem C7_counterexample :
    (process_text "coXTTS.wav" "hi" "out.wav" none
      ⟨none, some "No such file or directory: coXTTS.wav", none⟩).modelInvoked = true ∧
    (process_text "coXTTS.wav" "hi" "out.wav" none
      ⟨none, some "No such file or directory: coXTTS.wav", none⟩).voiceUsed =
      "coXTTS.wav" :=
  ⟨rfl, rfl⟩

/-- C7 amended: when the caller supplies no explicit voice reference the call
falls back to the process-configured default reference, but the reference is
passed to the model with no existence check; if the model then raises (as it
does for a missing reference) the error is caught and returned as a failure
carrying the message, rather than failing before the invocation. -/
theorem C7_fallback_no_existence_check (d t out : String) (o : ProcOutcome) :
    (process_text d t out none o).voiceUsed = d ∧
    (o.makedirsRaises = none → (process_text d t out none o).modelInvoked = true) ∧
    (∀ e, o.makedirsRaises = none → o.inferRaises = some e →
      (process_text d t out none o).outcome = SynthOutcome.raised e) := by
  rcases o with ⟨md, inf, fc⟩
  unfold process_text
  cases md <;> cases inf <;> cases fc <;> simp

/-- Witness for C7: a missing default reference leads to the model being
invoked and its error being returned as the failure message. -/
theorem C7_witness :
    (process_text "dv" "t" "out" none ⟨none, some "boom", none⟩).outcome =
      SynthOutcome.raised "boom" :=
  (C7_fallback_no_existence_check "dv" "t" "out" ⟨none, some "boom", none⟩).2.2
    "boom" rfl rfl

/-- C8 counterexample: when the default voice reference is missing, the
warm-up performs zero synthesize calls (it checks and skips, lines 97 and
101), not the one call the claim states. -/
theorem C8_counterexample :
    (warm_up_models false false).synthCalls = 0 ∧
    (warm_up_models false false).synthCalls ≠ 1 ∧
    (warm_up_models false false).skippedNoVoice = true :=
  ⟨rfl, by decide, rfl⟩

/-- C8 amended: the warm-up runs exactly once at startup; when the default
voice reference exists it performs one synthesize call with fixed trivial
input, writing to a named temporary file handled by a context manager rather
than the per-request temporary-directory workspace; when the reference is
missing it skips the call; any exception inside its guarded block is caught,
and startup always proceeds into the receive loop. -/
theorem C8_warm_up_amended (dve br : Bool) :
    (warm_up_models dve br).synthCalls = (if br then 0 else if dve then 1 else 0) ∧
    (warm_up_models dve br).usedNamedTempFile = true ∧
    (warm_up_models dve br).exceptionEscapes = false ∧
    (serverStartup dve br).warmUpRuns = 1 ∧
    (serverStartup dve br).entersReceiveLoop = true := by
  cases dve <;> cases br <;> exact ⟨rfl, rfl, rfl, rfl, rfl⟩

/-- C9 (code divergence): the cleanup removes the artifact file only when it
is present and removal succeeds, and removes the directory only when the file
removal succeeded as well, so with the artifact file absent (and a perfectly
functioning filesystem) the directory is not removed, the warning is logged,
and nothing propagates. -/
theorem C9_release_skips_rmdir :
    (∀ fe rr rd : Bool,
      (cleanupWorkspace fe rr rd).fileRemoved = (fe && !rr) ∧
      (cleanupWorkspace fe rr rd).dirRemoved = (fe && !rr && !rd)) ∧
    (cleanupWorkspace false false false).dirRemoved = false ∧
    (cleanupWorkspace false false false).warned = true := by
  refine ⟨?_, rfl, rfl⟩
  intro fe rr rd
  cases fe <;> cases rr <;> cases rd <;> exact ⟨rfl, rfl⟩

/-- C10: the dispatcher reads the payload from the frame at fixed index 3 and
echoes exactly frames 0 to 2: an envelope with fewer than 4 frames makes the
payload access raise, taking the error path with an empty reply payload;
an envelope with 4 or more frames has frame 3 used as the payload and the
reply always has exactly 4 frames, so trailing frames are never echoed. -/
theorem C10_fixed_frame_indices (d : String) (msg : Option Envelope) (o : IterOracle)
    (m : Envelope) (h : o.recv = RecvOutcome.ok m) :
    (m.length < 4 →
      (runStep d msg o).tookExceptPath = true ∧
      (runStep d msg o).replies = [m.take 3 ++ [emptyFrame]]) ∧
    (4 ≤ m.length →
      (runStep d msg o).payloadUsed = some (m.getD 3 emptyFrame) ∧
      ((runStep d msg o).replies.headD []).dropLast = m.take 3 ∧
      ((runStep d msg o).replies.headD []).length = 4) := by
  have hr := runStep_ok_replies d msg o m h
  constructor
  · intro h4
    constructor
    · unfold runStep
      rw [h]
      simp [h4, exceptIterResult]
    · rw [hr]
      unfold sentAudio
      simp [h4]
  · intro h4
    have h4' : ¬ m.length < 4 := not_lt.mpr h4
    refine ⟨?_, ?_, ?_⟩
    · unfold runStep
      rw [h]
      cases hm : o.mkdtempOk <;> cases hd : o.decodeOk <;>
        simp [h4', hm, hd, exceptIterResult]
    · rw [hr]
      simp
    · rw [hr]
      simp [List.length_take]
      omega

/-- Witness for C10 at a concrete five-frame request: the payload comes from
index 3 and the reply has exactly 4 frames. -/
theorem C10_witness :
    (runStep "v" none oracleFive).payloadUsed = some (envFive.getD 3 emptyFrame) ∧
    ((runStep "v" none oracleFive).replies.headD []).dropLast = envFive.take 3 ∧
    ((runStep "v" none oracleFive).replies.headD []).length = 4 :=
  (C10_fixed_frame_indices "v" none oracleFive envFive rfl).2 (by decide)
